import Mathlib

/- Shallow embedding of the fc variant / time headers
   (include/fc/variant.hpp, include/fc/time.hpp) and proofs of the
   specification claims about them. C++ int64_t counts are embedded as Int
   with explicit range predicates and mod 2^64 arithmetic where the source
   relies on two's-complement behaviour; double payloads are embedded as Rat. -/

namespace fc

/-- Error condition raised by variant accessors on a tag mismatch
(spec section 7: precondition/type-mismatch failures). -/
inductive fc_error where
  | type_mismatch
deriving DecidableEq

/-- Type tags of the variant, mirroring the enum type_id of variant.hpp
(null_type = 0 .. object_type = 7). -/
inductive type_id where
  | null_type
  | int64_type
  | uint64_type
  | double_type
  | bool_type
  | string_type
  | array_type
  | object_type
deriving DecidableEq

/-- The variant value: exactly one of the eight kinds.  String, Array and
Object are the heap-payload kinds; an Object is a string-keyed mapping,
embedded as an association list. -/
inductive variant where
  | null_type
  | int64_type (n : Int)
  | uint64_type (n : Nat)
  | double_type (d : Rat)
  | bool_type (b : Bool)
  | string_type (s : String)
  | array_type (xs : List variant)
  | object_type (fields : List (String × variant))

/-- Modelled from the spec: the body of variant::get_type is absent from
src (declaration only); the spec says it is an O(1) read of the stored tag. -/
def variant.get_type : variant → type_id
  | .null_type => .null_type
  | .int64_type _ => .int64_type
  | .uint64_type _ => .uint64_type
  | .double_type _ => .double_type
  | .bool_type _ => .bool_type
  | .string_type _ => .string_type
  | .array_type _ => .array_type
  | .object_type _ => .object_type

/-- Modelled from the spec: the bodies of variant::is_null .. is_array are
absent from src; the spec says they are O(1) tag tests. -/
def variant.is_null (v : variant) : Bool := v.get_type = .null_type

def variant.is_string (v : variant) : Bool := v.get_type = .string_type

def variant.is_bool (v : variant) : Bool := v.get_type = .bool_type

def variant.is_int64 (v : variant) : Bool := v.get_type = .int64_type

def variant.is_uint64 (v : variant) : Bool := v.get_type = .uint64_type

def variant.is_double (v : variant) : Bool := v.get_type = .double_type

def variant.is_object (v : variant) : Bool := v.get_type = .object_type

def variant.is_array (v : variant) : Bool := v.get_type = .array_type

/-- Modelled from the spec: body absent from src; true for int64, uint64,
double and bool (comment at variant.hpp line 147). -/
def variant.is_numeric (v : variant) : Bool :=
  v.is_int64 || v.is_uint64 || v.is_double || v.is_bool

/-- Truncation toward zero of a rational, as the C double-to-int64_t cast
behaves on in-range values (Int.div is the toward-zero division). -/
def trunc_toward_zero (q : Rat) : Int := q.num.tdiv (q.den : Int)

/-- Modelled from the spec: the body of variant::as_int64 is absent from
src; the spec says the as_ accessors perform best-effort coercion across
the numeric kinds (a Double answers by truncation), and section 7 makes
tag mismatches fail with a type-mismatch condition. -/
def variant.as_int64 : variant → Except fc_error Int
  | .int64_type n => .ok n
  | .uint64_type u => .ok (if u < 2 ^ 63 then (u : Int) else (u : Int) - 2 ^ 64)
  | .double_type d => .ok (trunc_toward_zero d)
  | .bool_type b => .ok (if b then 1 else 0)
  | _ => .error .type_mismatch

/-- Modelled from the spec: the body of variant::as_uint64 is absent from
src; on a negative Int64 it reinterprets the two's-complement bits rather
than failing. -/
def variant.as_uint64 : variant → Except fc_error Nat
  | .int64_type n => .ok ((n % (2 ^ 64 : Int)).toNat)
  | .uint64_type u => .ok u
  | .double_type d => .ok ((trunc_toward_zero d % (2 ^ 64 : Int)).toNat)
  | .bool_type b => .ok (if b then 1 else 0)
  | _ => .error .type_mismatch

/-- Modelled from the spec: the body of variant::as_bool is absent from
src; numeric kinds coerce (nonzero is true). -/
def variant.as_bool : variant → Except fc_error Bool
  | .int64_type n => .ok (n ≠ 0)
  | .uint64_type u => .ok (u ≠ 0)
  | .double_type d => .ok (d ≠ 0)
  | .bool_type b => .ok b
  | _ => .error .type_mismatch

/-- Modelled from the spec: the body of variant::as_double is absent from
src; numeric kinds coerce. -/
def variant.as_double : variant → Except fc_error Rat
  | .int64_type n => .ok (n : Rat)
  | .uint64_type u => .ok (u : Rat)
  | .double_type d => .ok d
  | .bool_type b => .ok (if b then 1 else 0)
  | _ => .error .type_mismatch

/-- Modelled from the spec: the body of variant::as_string is absent from
src; it renders any numeric, boolean or null value as text, returns a
String payload as is, and fails with a type-mismatch condition on Array
and Object (doc comment at variant.hpp lines 156-158). -/
def variant.as_string : variant → Except fc_error String
  | .null_type => .ok "null"
  | .int64_type n => .ok (toString n)
  | .uint64_type u => .ok (toString u)
  | .double_type d => .ok (toString d.num ++ "/" ++ toString d.den)
  | .bool_type b => .ok (if b then "true" else "false")
  | .string_type s => .ok s
  | .array_type _ => .error .type_mismatch
  | .object_type _ => .error .type_mismatch

/-- Modelled from the spec: the body of the const variant::get_string is
absent from src; it requires an exact String tag (precondition comment at
variant.hpp line 161) and fails with a type-mismatch condition otherwise. -/
def variant.get_string : variant → Except fc_error String
  | .string_type s => .ok s
  | _ => .error .type_mismatch

/-- Modelled from the spec: the body of the const variant::get_array is
absent from src; it requires an exact Array tag (doc comment at
variant.hpp line 167) and fails otherwise, Null included. -/
def variant.get_array_const : variant → Except fc_error (List variant)
  | .array_type xs => .ok xs
  | _ => .error .type_mismatch

/-- Modelled from the spec: the body of the mutable variant::get_array is
absent from src; on an Array it yields the elements, on Null it promotes
the variant in place to an empty Array (doc comment at variant.hpp line
164), anything else fails.  The result pairs the accessed elements with
the post-call variant. -/
def variant.get_array_mut : variant → Except fc_error (List variant × variant)
  | .array_type xs => .ok (xs, .array_type xs)
  | .null_type => .ok ([], .array_type [])
  | _ => .error .type_mismatch

/-- Modelled from the spec: the body of the const variant::get_object is
absent from src; it requires an exact Object tag (doc comment at
variant.hpp line 173) and fails otherwise, Null included. -/
def variant.get_object_const : variant → Except fc_error (List (String × variant))
  | .object_type fs => .ok fs
  | _ => .error .type_mismatch

/-- Modelled from the spec: the body of the mutable variant::get_object is
absent from src; on an Object it yields the fields, on Null it promotes
the variant in place to an empty Object (doc comment at variant.hpp line
170), anything else fails. -/
def variant.get_object_mut : variant → Except fc_error (List (String × variant) × variant)
  | .object_type fs => .ok (fs, .object_type fs)
  | .null_type => .ok ([], .object_type [])
  | _ => .error .type_mismatch

/-- Modelled from the spec: the body of from_variant(const variant&, int64_t&)
is absent from src; per the round-trip property of spec section 8 and the
coercion rules it converts via as_int64. -/
def from_variant_int64 (var : variant) : Except fc_error Int := var.as_int64

/- Containers. The template bodies are present in src (variant.hpp lines
259-315). The element conversion is abstracted by a function parameter, as
it is by the C++ template: as of variant.hpp line 195 builds a fresh
default element and converts into it, so for the container proofs a
converter of type variant to Except suffices. A container from_variant is
embedded as a state transformer on the destination that also reports the
destination contents at the moment a failure aborts the loop, since the
C++ code mutates the destination in place. -/

/-- The push_back loop of from_variant(const variant&, std::vector<T>&):
convert elements left to right, appending each success; on the first
failure stop, returning the error together with the elements pushed so
far (the destination state at the throw). -/
def push_elements {T : Type} (g : variant → Except fc_error T) :
    List variant → List T → Except fc_error (List T) × List T
  | [], acc => (.ok acc, acc)
  | v :: vs, acc =>
    match g v with
    | .ok x => push_elements g vs (acc ++ [x])
    | .error e => (.error e, acc)

/-- from_variant(const variant&, std::vector<T>&), variant.hpp lines
296-305: read the source as a const Array (throws on a tag mismatch,
before any mutation), then clear the destination and push the converted
elements one by one.  The pair carries the conversion outcome and the
final contents of the destination. -/
def from_variant_vector {T : Type} (g : variant → Except fc_error T)
    (var : variant) (tmp : List T) : Except fc_error (List T) × List T :=
  match var.get_array_const with
  | .error e => (.error e, tmp)
  | .ok vars => push_elements g vars []

/-- to_variant(const std::vector<T>&, variant&), variant.hpp lines
307-315: an Array of the same length whose i-th element is the variant of
the i-th source element. -/
def to_variant_vector {T : Type} (f : T → variant) (t : List T) : variant :=
  .array_type (t.map f)

/-- The insert loop of from_variant for std::set / std::unordered_set:
convert elements left to right, inserting each success into the
destination set; on the first failure stop, returning the error together
with the set built so far. -/
def insert_elements {T : Type} [DecidableEq T] (g : variant → Except fc_error T) :
    List variant → Finset T → Except fc_error (Finset T) × Finset T
  | [], acc => (.ok acc, acc)
  | v :: vs, acc =>
    match g v with
    | .ok x => insert_elements g vs (insert x acc)
    | .error e => (.error e, acc)

/-- from_variant for std::set<T> and std::unordered_set<T>, variant.hpp
lines 268-276 and 286-294 (both have the same shape): read the source as
a const Array, then clear the destination and insert the converted
elements one by one. -/
def from_variant_set {T : Type} [DecidableEq T] (g : variant → Except fc_error T)
    (var : variant) (vo : Finset T) : Except fc_error (Finset T) × Finset T :=
  match var.get_array_const with
  | .error e => (.error e, vo)
  | .ok vars => insert_elements g vars ∅

/-- to_variant for std::set<T> / std::unordered_set<T>, variant.hpp lines
259-267 and 277-285: walk the container in its iteration order (the list
parameter) and build an Array of the elements' variants. -/
def to_variant_set {T : Type} (f : T → variant) (iter : List T) : variant :=
  .array_type (iter.map f)

/-- The converting constructor variant(const optional<T>&), variant.hpp
lines 213-217.  Its body is `if v then assign variant of the value`; the
member-initializer list is empty and nothing writes the members when the
optional is absent, so the result is then whatever indeterminate contents
the storage held — embedded as the explicit `uninit` argument. -/
def variant_of_optional {T : Type} (f : T → variant) (uninit : variant) :
    Option T → variant
  | some x => f x
  | none => uninit

/-- from_variant(const variant&, optional<T>&), variant.hpp lines 249-258:
Null becomes the absent optional; otherwise a default T is constructed and
converted into in place (`g var default_T`, with g the in-place element
conversion). -/
def from_variant_optional {T : Type} (g : variant → T → Except fc_error T)
    (default_T : T) (var : variant) : Except fc_error (Option T) :=
  if var.is_null then .ok none
  else
    match g var default_T with
    | .ok x => .ok (some x)
    | .error e => .error e

/- Owning pointers. The shared_ptr bodies are in src (variant.hpp lines
327-343). Identity of the pointee is embedded through an address heap: the
state holds a partial heap, the pointer as an optional address, and the
next fresh address. -/

/-- State of a std::shared_ptr<T> destination: the heap of live T
instances by address, the pointer (an address or empty), and the next
fresh address an allocation would use. -/
structure shared_ptr_state (T : Type) where
  heap : Nat → Option T
  ptr : Option Nat
  next : Nat

/-- to_variant(const std::shared_ptr<T>&, variant&), variant.hpp lines
327-332: an empty pointer yields Null, a non-empty one the pointee's own
variant. -/
def to_variant_shared_ptr {T : Type} (f : T → variant)
    (s : shared_ptr_state T) : variant :=
  match s.ptr with
  | none => .null_type
  | some a =>
    match s.heap a with
    | some x => f x
    | none => .null_type

/-- from_variant(const variant&, std::shared_ptr<T>&), variant.hpp lines
334-343: a Null source resets the pointer to empty; otherwise, if the
pointer already owns an instance, convert into that instance in place at
its existing address; only if the pointer was empty, allocate a fresh
default instance at the next address and convert into it.  The pair
carries the outcome and the final pointer state. -/
def from_variant_shared_ptr {T : Type} (g : variant → T → Except fc_error T)
    (default_T : T) (var : variant) (s : shared_ptr_state T) :
    Except fc_error Unit × shared_ptr_state T :=
  if var.is_null then (.ok (), { s with ptr := none })
  else
    match s.ptr with
    | some a =>
      match s.heap a with
      | some old =>
        match g var old with
        | .ok new_val =>
          (.ok (), { s with heap := fun b => if b = a then some new_val else s.heap b })
        | .error e => (.error e, s)
      | none => (.error .type_mismatch, s)
    | none =>
      let a := s.next
      let s1 : shared_ptr_state T :=
        { heap := fun b => if b = a then some default_T else s.heap b
          ptr := some a
          next := a + 1 }
      match g var default_T with
      | .ok new_val =>
        (.ok (), { s1 with heap := fun b => if b = a then some new_val else s.heap b })
      | .error e => (.error e, s1)

/- Storage-level representation, for the move claims. The data member of
the C++ class is an 8-byte slot that holds either the inline scalar bits
or a heap handle, next to the tag (variant.hpp lines 223-226). -/

/-- The payload slot: inline scalar bits, or the handle of a heap-owned
String/Array/Object payload. -/
inductive payload where
  | inline_data (bits : Int)
  | heap_handle (h : Nat)
deriving DecidableEq

/-- Storage-level view of a variant: the tag and the payload slot. -/
structure variant_repr where
  tag : type_id
  data : payload
deriving DecidableEq

/-- True for the heap-payload kinds String, Array and Object. -/
def type_id.is_heap_kind : type_id → Bool
  | .string_type => true
  | .array_type => true
  | .object_type => true
  | _ => false

/-- The storage of a default-constructed (Null) variant. -/
def variant_repr.null_repr : variant_repr := ⟨.null_type, .inline_data 0⟩

/-- Tag test on the storage view. -/
def variant_repr.is_null (v : variant_repr) : Bool := v.tag = .null_type

/-- The heap handles a variant releases when destroyed: its handle when it
holds a heap kind, nothing for the inline kinds (tag-dispatched release,
a no-op for inline kinds). -/
def variant_repr.releases : variant_repr → List Nat
  | ⟨t, .heap_handle h⟩ => if t.is_heap_kind then [h] else []
  | _ => []

/-- Modelled from the spec: the body of variant(variant&&) is absent from
src (declared at variant.hpp line 113); the spec says move construction
transfers the heap handle and resets the source to Null (valid but
empty).  Returns (constructed value, moved-from source). -/
def move_construct (src : variant_repr) : variant_repr × variant_repr :=
  (src, .null_repr)

/-- Modelled from the spec: the body of variant::operator=(variant&&) is
absent from src (declared at variant.hpp line 203); the spec says the
destination first releases any payload it held, then adopts the source's
handle, and the source is left Null.  Returns (handles released by the
old destination payload, new destination, moved-from source). -/
def move_assign (dst src : variant_repr) : List Nat × variant_repr × variant_repr :=
  (dst.releases, src, .null_repr)

/- Time values (include/fc/time.hpp, fully inline in src). -/

/-- A signed 64-bit count is in range. -/
def int64_repr (n : Int) : Prop := -(2 ^ 63) ≤ n ∧ n < 2 ^ 63

/-- microseconds, time.hpp lines 7-23: a signed 64-bit count; the default
constructor argument is 0. -/
structure microseconds where
  count : Int
deriving DecidableEq

/-- microseconds::maximum(), time.hpp line 10: count 0x7fffffffffffffff. -/
def microseconds.maximum : microseconds := ⟨0x7fffffffffffffff⟩

/-- time_point, time.hpp lines 27-49: wraps elapsed microseconds since the
epoch; the default constructor wraps microseconds(0). -/
structure time_point where
  elapsed : microseconds
deriving DecidableEq

/-- time_point::maximum(), time.hpp line 31. -/
def time_point.maximum : time_point := ⟨microseconds.maximum⟩

/-- time_point::min(), time.hpp line 32: returns time_point(), the default
constructed value. -/
def time_point.min : time_point := ⟨⟨0⟩⟩

/-- time_point::operator<, time.hpp line 40: compares the counts. -/
def time_point.lt (a b : time_point) : Bool := a.elapsed.count < b.elapsed.count

/-- time_point::operator>, time.hpp line 38: compares the counts. -/
def time_point.gt (a b : time_point) : Bool := a.elapsed.count > b.elapsed.count

/-- Decides whether a conversion outcome is a success. -/
def except_is_ok {ε α : Type} : Except ε α → Bool
  | .ok _ => true
  | .error _ => false

/-- C10: time_point::min() equals time_point(microseconds(0)), the epoch,
and is not the least representable time point: any time_point with a
negative microsecond count compares less than min(); time_point::maximum()
has count 2^63 - 1 and no representable time_point compares greater than
it. -/
theorem claim_C10_time_point_min_max :
    time_point.min = ⟨⟨0⟩⟩ ∧
    (∀ t : time_point, t.elapsed.count < 0 → time_point.lt t time_point.min = true) ∧
    time_point.maximum.elapsed.count = 2 ^ 63 - 1 ∧
    (∀ t : time_point, int64_repr t.elapsed.count →
      time_point.gt t time_point.maximum = false) := by
  refine ⟨rfl, ?_, by decide, ?_⟩
  · intro t ht
    simp [time_point.lt, time_point.min]
    exact ht
  · intro t ht
    obtain ⟨_, h2⟩ := ht
    simp [time_point.gt, time_point.maximum, microseconds.maximum]
    omega

/-- Concrete instance of claim C10: the time_point with count -1 compares
less than min(), and the time_point with count 5 does not compare greater
than maximum(). -/
theorem claim_C10_witness :
    time_point.lt ⟨⟨-1⟩⟩ time_point.min = true ∧
    time_point.gt ⟨⟨5⟩⟩ time_point.maximum = false :=
  ⟨claim_C10_time_point_min_max.2.1 ⟨⟨-1⟩⟩ (by decide),
   claim_C10_time_point_min_max.2.2.2 ⟨⟨5⟩⟩ (by constructor <;> decide)⟩

/-- C2: get_string, get_array and get_object require an exact tag match
and fail with a type-mismatch condition otherwise — in particular
get_string on variant(42) fails — except that the mutable
get_array/get_object on a Null variant succeeds and promotes it in place
to an empty Array/Object, while the const forms fail on Null. -/
theorem claim_C2_exact_tag_accessors :
    (∀ v : variant, v.is_string = false → v.get_string = .error .type_mismatch) ∧
    (∀ v : variant, v.is_array = false → v.get_array_const = .error .type_mismatch) ∧
    (∀ v : variant, v.is_object = false → v.get_object_const = .error .type_mismatch) ∧
    (∀ v : variant, v.is_array = false → v.is_null = false →
      v.get_array_mut = .error .type_mismatch) ∧
    (∀ v : variant, v.is_object = false → v.is_null = false →
      v.get_object_mut = .error .type_mismatch) ∧
    (∀ s, (variant.string_type s).get_string = .ok s) ∧
    (∀ xs, (variant.array_type xs).get_array_mut = .ok (xs, .array_type xs)) ∧
    variant.null_type.get_array_mut = .ok ([], .array_type []) ∧
    variant.null_type.get_object_mut = .ok ([], .object_type []) ∧
    variant.null_type.get_array_const = .error .type_mismatch ∧
    variant.null_type.get_object_const = .error .type_mismatch ∧
    (variant.int64_type 42).get_string = .error .type_mismatch := by
  refine ⟨?_, ?_, ?_, ?_, ?_, fun s => rfl, fun xs => rfl, rfl, rfl, rfl, rfl, rfl⟩ <;>
    intro v <;> cases v <;>
    simp [variant.is_string, variant.is_array, variant.is_object, variant.is_null,
      variant.get_type, variant.get_string, variant.get_array_const,
      variant.get_object_const, variant.get_array_mut, variant.get_object_mut]

/-- Concrete instance of claim C2: get_string on a Bool variant fails, and
the mutable get_array on an Int64 variant fails. -/
theorem claim_C2_witness :
    (variant.bool_type true).get_string = .error .type_mismatch ∧
    (variant.int64_type 1).get_array_mut = .error .type_mismatch :=
  ⟨claim_C2_exact_tag_accessors.1 _ rfl,
   claim_C2_exact_tag_accessors.2.2.2.1 _ rfl rfl⟩

/-- C8: as_string succeeds on every variant whose kind is Null, Int64,
UInt64, Double or Bool (variant(42) renders as "42") and fails with a
type-mismatch condition exactly when the kind is Array or Object. -/
theorem claim_C8_as_string :
    (∀ v : variant, v.is_array = false → v.is_object = false → ∃ s, v.as_string = .ok s) ∧
    (∀ v : variant, v.is_array = true ∨ v.is_object = true →
      v.as_string = .error .type_mismatch) ∧
    (variant.int64_type 42).as_string = .ok "42" := by
  refine ⟨?_, ?_, rfl⟩ <;> intro v <;> cases v <;>
    simp [variant.is_array, variant.is_object, variant.get_type, variant.as_string]

/-- Concrete instance of claim C8: as_string succeeds on a Double variant
and fails on an empty Array variant. -/
theorem claim_C8_witness :
    (∃ s, (variant.double_type (39 / 10)).as_string = .ok s) ∧
    (variant.array_type []).as_string = .error .type_mismatch :=
  ⟨claim_C8_as_string.1 _ rfl rfl, claim_C8_as_string.2.1 _ (Or.inl rfl)⟩

/-- C9: the as_int64/as_uint64/as_bool/as_double accessors succeed on
every numeric kind (Int64, UInt64, Double, Bool) instead of failing; a
Double answers as_int64 by truncation toward zero, so variant(3.9)
as_int64 is 3, and as_uint64 on Int64(-1) is the two's-complement
reinterpretation 2^64 - 1. -/
theorem claim_C9_numeric_coercion :
    (∀ v : variant, v.is_numeric = true →
      except_is_ok v.as_int64 = true ∧ except_is_ok v.as_uint64 = true ∧
      except_is_ok v.as_bool = true ∧ except_is_ok v.as_double = true) ∧
    (variant.double_type (39 / 10)).as_int64 = .ok 3 ∧
    (variant.int64_type (-1)).as_uint64 = .ok (2 ^ 64 - 1) := by
  refine ⟨?_, ?_, congrArg Except.ok (by decide)⟩
  · intro v hv
    cases v <;>
      simp_all [variant.is_numeric, variant.is_int64, variant.is_uint64, variant.is_double,
        variant.is_bool, variant.get_type, variant.as_int64, variant.as_uint64,
        variant.as_bool, variant.as_double, except_is_ok]
  · have hn : ((39 : Rat) / 10).num = 39 := by norm_num
    have hd : ((39 : Rat) / 10).den = 10 := by norm_num
    simp [variant.as_int64, trunc_toward_zero, hn, hd]
    decide

/-- Concrete instance of claim C9: as_int64 succeeds on a Bool variant. -/
theorem claim_C9_witness :
    except_is_ok (variant.bool_type true).as_int64 = true :=
  (claim_C9_numeric_coercion.1 (variant.bool_type true) rfl).1

/-- When every element of a mapped list converts back successfully, the
push_back loop appends exactly the original elements. -/
theorem push_elements_map {T : Type} (g : variant → Except fc_error T) (f : T → variant)
    (h : ∀ x, g (f x) = .ok x) :
    ∀ (xs acc : List T), push_elements g (xs.map f) acc = (.ok (acc ++ xs), acc ++ xs)
  | [], acc => by simp [push_elements]
  | x :: xs, acc => by
    simp only [List.map_cons, push_elements, h x]
    rw [push_elements_map g f h xs (acc ++ [x])]
    simp

/-- If the push_back loop succeeds on a prefix and the next element fails,
the loop over the whole list stops there, leaving exactly the converted
prefix in the destination. -/
theorem push_elements_append_error {T : Type} (g : variant → Except fc_error T) :
    ∀ (pre : List variant) (acc xs : List T) (bad : variant) (rest : List variant)
      (e : fc_error),
      push_elements g pre acc = (.ok xs, xs) → g bad = .error e →
      push_elements g (pre ++ bad :: rest) acc = (.error e, xs)
  | [], acc, xs, bad, rest, e => by
    intro hpre hbad
    simp [push_elements] at hpre
    simp [push_elements, hbad, hpre]
  | v :: pre, acc, xs, bad, rest, e => by
    intro hpre hbad
    simp only [push_elements] at hpre ⊢
    cases hgv : g v with
    | ok x =>
      rw [hgv] at hpre
      simp only [List.cons_append]
      exact push_elements_append_error g pre (acc ++ [x]) xs bad rest e hpre hbad
    | error e2 =>
      rw [hgv] at hpre
      simp at hpre

/-- If the set-insert loop succeeds on a prefix and the next element
fails, the loop over the whole list stops there, leaving exactly the
inserted prefix. -/
theorem insert_elements_append_error {T : Type} [DecidableEq T]
    (g : variant → Except fc_error T) :
    ∀ (pre : List variant) (acc : Finset T) (s : Finset T) (bad : variant)
      (rest : List variant) (e : fc_error),
      insert_elements g pre acc = (.ok s, s) → g bad = .error e →
      insert_elements g (pre ++ bad :: rest) acc = (.error e, s)
  | [], acc, s, bad, rest, e => by
    intro hpre hbad
    simp [insert_elements] at hpre
    simp [insert_elements, hbad, hpre]
  | v :: pre, acc, s, bad, rest, e => by
    intro hpre hbad
    simp only [insert_elements] at hpre ⊢
    cases hgv : g v with
    | ok x =>
      rw [hgv] at hpre
      simp only [List.cons_append]
      exact insert_elements_append_error g pre (insert x acc) s bad rest e hpre hbad
    | error e2 =>
      rw [hgv] at hpre
      simp at hpre

/-- C3 counterexample: converting the Array holding the single element
Int64(1) into a vector of vectors of int64 fails at that element (it is
not an Array), yet the destination, which held one element before the
call, has been cleared — the failed call mutated its target. -/
theorem claim_C3_counterexample :
    from_variant_vector (fun v => (from_variant_vector from_variant_int64 v []).1)
        (.array_type [.int64_type 1]) [[7]] =
      (.error .type_mismatch, ([] : List (List Int))) ∧
    ([] : List (List Int)) ≠ [[7]] := by
  exact ⟨rfl, by decide⟩

/-- C3 as amended: a container from_variant whose source fails the Array
check fails without mutating its destination; but once the source passes
the Array check the destination is cleared and filled element by element,
so a failure while converting an element leaves the destination holding
exactly the successfully converted prefix (a partial result), not its
original contents.  This holds for the vector overload and for the
set/unordered_set overloads alike. -/
theorem claim_C3_amended {T : Type} [DecidableEq T] (g : variant → Except fc_error T)
    (var : variant) (tmp : List T) (vo : Finset T) :
    (∀ e, var.get_array_const = .error e → from_variant_vector g var tmp = (.error e, tmp)) ∧
    (∀ (pre : List variant) (bad : variant) (rest : List variant) (xs : List T) e,
      var.get_array_const = .ok (pre ++ bad :: rest) →
      push_elements g pre [] = (.ok xs, xs) →
      g bad = .error e →
      from_variant_vector g var tmp = (.error e, xs)) ∧
    (∀ e, var.get_array_const = .error e → from_variant_set g var vo = (.error e, vo)) ∧
    (∀ (pre : List variant) (bad : variant) (rest : List variant) (s : Finset T) e,
      var.get_array_const = .ok (pre ++ bad :: rest) →
      insert_elements g pre ∅ = (.ok s, s) →
      g bad = .error e →
      from_variant_set g var vo = (.error e, s)) := by
  refine ⟨?_, ?_, ?_, ?_⟩
  · intro e he
    simp [from_variant_vector, he]
  · intro pre bad rest xs e hv hpre hbad
    simp only [from_variant_vector, hv]
    exact push_elements_append_error g pre [] xs bad rest e hpre hbad
  · intro e he
    simp [from_variant_set, he]
  · intro pre bad rest s e hv hpre hbad
    simp only [from_variant_set, hv]
    exact insert_elements_append_error g pre ∅ s bad rest e hpre hbad

/-- Concrete instance of the amended claim C3: a String source leaves the
destination [5] untouched, while a source Array whose second element fails
leaves the destination as the converted prefix [4]. -/
theorem claim_C3_witness :
    from_variant_vector from_variant_int64 (.string_type "x") [5] =
      (.error .type_mismatch, ([5] : List Int)) ∧
    from_variant_vector from_variant_int64
        (.array_type [.int64_type 4, .string_type "x"]) [9] =
      (.error .type_mismatch, ([4] : List Int)) :=
  ⟨(claim_C3_amended from_variant_int64 (.string_type "x") [5] ∅).1 .type_mismatch rfl,
   (claim_C3_amended from_variant_int64 (.array_type [.int64_type 4, .string_type "x"])
      [9] ∅).2.1 [.int64_type 4] (.string_type "x") [] [4] .type_mismatch rfl rfl rfl⟩

/-- C5: to_variant of a vector is an Array of the same length whose i-th
element is the variant of the i-th source element, order preserved, and
from_variant of that Array restores the original vector whenever each
element round-trips. -/
theorem claim_C5_vector_round_trip {T : Type} (f : T → variant)
    (g : variant → Except fc_error T) (h : ∀ x, g (f x) = .ok x)
    (xs tmp : List T) :
    to_variant_vector f xs = .array_type (xs.map f) ∧
    (xs.map f).length = xs.length ∧
    (∀ i : Nat, (xs.map f)[i]? = (xs[i]?).map f) ∧
    from_variant_vector g (to_variant_vector f xs) tmp = (.ok xs, xs) := by
  refine ⟨rfl, by simp, by simp, ?_⟩
  simp only [to_variant_vector, from_variant_vector, variant.get_array_const]
  rw [push_elements_map g f h xs []]
  simp

/-- Concrete instance of claim C5: the int64 vector [1, 2, 3] becomes an
Array of three Int64 variants in order and converts back to [1, 2, 3]. -/
theorem claim_C5_witness :
    to_variant_vector variant.int64_type [1, 2, 3] =
      .array_type [.int64_type 1, .int64_type 2, .int64_type 3] ∧
    from_variant_vector from_variant_int64 (to_variant_vector variant.int64_type [1, 2, 3])
        [] = (.ok ([1, 2, 3] : List Int), [1, 2, 3]) :=
  ⟨(claim_C5_vector_round_trip variant.int64_type from_variant_int64 (fun _ => rfl)
      [1, 2, 3] []).1,
   (claim_C5_vector_round_trip variant.int64_type from_variant_int64 (fun _ => rfl)
      [1, 2, 3] []).2.2.2⟩

/-- When every element of a mapped list converts back successfully, the
set-insert loop builds exactly the fold of inserts over the list. -/
theorem insert_elements_map {T : Type} [DecidableEq T] (g : variant → Except fc_error T)
    (f : T → variant) (h : ∀ x, g (f x) = .ok x) :
    ∀ (xs : List T) (acc : Finset T),
      insert_elements g (xs.map f) acc =
        (.ok (xs.foldl (fun s x => insert x s) acc), xs.foldl (fun s x => insert x s) acc)
  | [], acc => by simp [insert_elements]
  | x :: xs, acc => by
    simp only [List.map_cons, insert_elements, h x, List.foldl_cons]
    exact insert_elements_map g f h xs (insert x acc)

/-- Folding set insertion over a list unions its elements into the
accumulator. -/
theorem foldl_insert_toFinset {T : Type} [DecidableEq T] :
    ∀ (l : List T) (acc : Finset T),
      l.foldl (fun s x => insert x s) acc = acc ∪ l.toFinset
  | [], acc => by simp
  | x :: l, acc => by
    rw [List.foldl_cons, foldl_insert_toFinset l (insert x acc), List.toFinset_cons,
      Finset.insert_union, Finset.union_insert]

/-- Permuted lists have the same element Finset. -/
theorem perm_toFinset_eq {T : Type} [DecidableEq T] {l1 l2 : List T}
    (h : List.Perm l1 l2) : l1.toFinset = l2.toFinset := by
  apply Finset.ext
  intro a
  simp only [List.mem_toFinset]
  exact h.mem_iff

/-- C6: converting a set to a variant yields an Array with one variant per
element of the iteration order, and converting back yields a set equal to
the original — for any two iteration orders of the same elements (any
permutation) the decoded set is the same. -/
theorem claim_C6_set_round_trip {T : Type} [DecidableEq T] (f : T → variant)
    (g : variant → Except fc_error T) (h : ∀ x, g (f x) = .ok x)
    (iter1 iter2 : List T) (hperm : List.Perm iter1 iter2) (vo : Finset T) :
    (to_variant_set f iter1).get_array_const = .ok (iter1.map f) ∧
    (iter1.map f).length = iter1.length ∧
    from_variant_set g (to_variant_set f iter1) vo = (.ok iter1.toFinset, iter1.toFinset) ∧
    from_variant_set g (to_variant_set f iter2) vo = (.ok iter1.toFinset, iter1.toFinset) := by
  have key : ∀ l : List T,
      from_variant_set g (to_variant_set f l) vo = (.ok l.toFinset, l.toFinset) := by
    intro l
    simp only [to_variant_set, from_variant_set, variant.get_array_const]
    rw [insert_elements_map g f h l ∅, foldl_insert_toFinset]
    simp
  refine ⟨rfl, by simp, key iter1, ?_⟩
  rw [key iter2, perm_toFinset_eq hperm]

/-- Concrete instance of claim C6: the elements 1, 2, 3 encoded in
iteration order [1, 2, 3] or [3, 1, 2] decode to the same Finset. -/
theorem claim_C6_witness :
    from_variant_set from_variant_int64 (to_variant_set variant.int64_type [1, 2, 3]) ∅ =
      (.ok ([1, 2, 3] : List Int).toFinset, ([1, 2, 3] : List Int).toFinset) ∧
    from_variant_set from_variant_int64 (to_variant_set variant.int64_type [3, 1, 2]) ∅ =
      (.ok ([1, 2, 3] : List Int).toFinset, ([1, 2, 3] : List Int).toFinset) :=
  ⟨(claim_C6_set_round_trip variant.int64_type from_variant_int64 (fun _ => rfl)
      [1, 2, 3] [3, 1, 2] (by decide) ∅).2.2.1,
   (claim_C6_set_round_trip variant.int64_type from_variant_int64 (fun _ => rfl)
      [1, 2, 3] [3, 1, 2] (by decide) ∅).2.2.2⟩

/-- C1: from_variant into a shared_ptr resets the pointer to empty on a
Null source; on a non-Null source with a non-empty destination it converts
into the existing instance in place — the pointer keeps the same address
and no fresh address is consumed; only when the destination was empty is a
fresh default instance allocated.  to_variant of an empty pointer is Null
and of a non-empty pointer is the pointee's own variant. -/
theorem claim_C1_shared_ptr {T : Type} (f : T → variant)
    (g : variant → T → Except fc_error T) (default_T : T)
    (var : variant) (s : shared_ptr_state T) :
    (var.is_null = true →
      from_variant_shared_ptr g default_T var s = (.ok (), { s with ptr := none })) ∧
    (∀ a old new_val, var.is_null = false → s.ptr = some a → s.heap a = some old →
      g var old = .ok new_val →
      (from_variant_shared_ptr g default_T var s).1 = .ok () ∧
      (from_variant_shared_ptr g default_T var s).2.ptr = some a ∧
      (from_variant_shared_ptr g default_T var s).2.next = s.next ∧
      (from_variant_shared_ptr g default_T var s).2.heap a = some new_val) ∧
    (∀ new_val, var.is_null = false → s.ptr = none → g var default_T = .ok new_val →
      (from_variant_shared_ptr g default_T var s).1 = .ok () ∧
      (from_variant_shared_ptr g default_T var s).2.ptr = some s.next ∧
      (from_variant_shared_ptr g default_T var s).2.next = s.next + 1 ∧
      (from_variant_shared_ptr g default_T var s).2.heap s.next = some new_val) ∧
    (s.ptr = none → to_variant_shared_ptr f s = .null_type) ∧
    (∀ a x, s.ptr = some a → s.heap a = some x → to_variant_shared_ptr f s = f x) := by
  refine ⟨?_, ?_, ?_, ?_, ?_⟩
  · intro hnull
    simp [from_variant_shared_ptr, hnull]
  · intro a old new_val hnull hptr hheap hg
    simp [from_variant_shared_ptr, hnull, hptr, hheap, hg]
  · intro new_val hnull hptr hg
    simp [from_variant_shared_ptr, hnull, hptr, hg]
  · intro hptr
    simp [to_variant_shared_ptr, hptr]
  · intro a x hptr hheap
    simp [to_variant_shared_ptr, hptr, hheap]

/-- Concrete instance of claim C1: converting Int64(9) into a pointer that
owns the value 5 at address 0 rewrites address 0 in place to 9 without
consuming a fresh address, and converting a Null source empties the
pointer. -/
theorem claim_C1_witness :
    (from_variant_shared_ptr (fun v _ => v.as_int64) (0 : Int) (.int64_type 9)
        ⟨fun b => if b = 0 then some 5 else none, some 0, 1⟩).2.ptr = some 0 ∧
    (from_variant_shared_ptr (fun v _ => v.as_int64) (0 : Int) (.int64_type 9)
        ⟨fun b => if b = 0 then some 5 else none, some 0, 1⟩).2.next = 1 ∧
    (from_variant_shared_ptr (fun v _ => v.as_int64) (0 : Int) (.int64_type 9)
        ⟨fun b => if b = 0 then some 5 else none, some 0, 1⟩).2.heap 0 = some 9 ∧
    (from_variant_shared_ptr (fun v _ => v.as_int64) (0 : Int) .null_type
        ⟨fun b => if b = 0 then some 5 else none, some 0, 1⟩).2.ptr = none := by
  refine ⟨?_, ?_, ?_, ?_⟩
  · exact ((claim_C1_shared_ptr variant.int64_type (fun v _ => v.as_int64) 0 (.int64_type 9)
      ⟨fun b => if b = 0 then some 5 else none, some 0, 1⟩).2.1 0 5 9 rfl rfl rfl rfl).2.1
  · exact ((claim_C1_shared_ptr variant.int64_type (fun v _ => v.as_int64) 0 (.int64_type 9)
      ⟨fun b => if b = 0 then some 5 else none, some 0, 1⟩).2.1 0 5 9 rfl rfl rfl rfl).2.2.1
  · exact ((claim_C1_shared_ptr variant.int64_type (fun v _ => v.as_int64) 0 (.int64_type 9)
      ⟨fun b => if b = 0 then some 5 else none, some 0, 1⟩).2.1 0 5 9 rfl rfl rfl rfl).2.2.2
  · exact congrArg (fun p => p.2.ptr)
      ((claim_C1_shared_ptr variant.int64_type (fun v _ => v.as_int64) 0 .null_type
        ⟨fun b => if b = 0 then some 5 else none, some 0, 1⟩).1 rfl)

/-- C4: moving from a variant that holds a heap payload (String, Array or
Object) transfers the heap handle unchanged to the destination and leaves
the source Null, for both move construction and move assignment, and the
handles released by subsequently destroying both values amount to the one
handle exactly once. -/
theorem claim_C4_move_semantics (v1 dst : variant_repr) (hd : Nat)
    (htag : v1.tag.is_heap_kind = true) (hdata : v1.data = .heap_handle hd) :
    (move_construct v1).1 = v1 ∧
    (move_construct v1).2.is_null = true ∧
    (move_construct v1).2.releases ++ (move_construct v1).1.releases = [hd] ∧
    (move_assign dst v1).2.1 = v1 ∧
    (move_assign dst v1).2.2.is_null = true ∧
    (move_assign dst v1).2.2.releases ++ (move_assign dst v1).2.1.releases = [hd] := by
  obtain ⟨t, d⟩ := v1
  simp only at hdata
  subst hdata
  simp [move_construct, move_assign, variant_repr.releases, variant_repr.null_repr,
    variant_repr.is_null, htag]

/-- Concrete instance of claim C4: moving from a String variant with heap
handle 3 leaves the source Null and the pair of destructions releases
handle 3 exactly once. -/
theorem claim_C4_witness :
    (move_construct ⟨.string_type, .heap_handle 3⟩).2.is_null = true ∧
    (move_construct ⟨.string_type, .heap_handle 3⟩).2.releases ++
      (move_construct ⟨.string_type, .heap_handle 3⟩).1.releases = [3] :=
  ⟨(claim_C4_move_semantics ⟨.string_type, .heap_handle 3⟩ ⟨.array_type, .heap_handle 9⟩
      3 rfl rfl).2.1,
   (claim_C4_move_semantics ⟨.string_type, .heap_handle 3⟩ ⟨.array_type, .heap_handle 9⟩
      3 rfl rfl).2.2.1⟩

/-- C7, at the failing input: the converting constructor of variant from
an optional leaves the destination's storage untouched when the optional
is absent (nothing in the constructor writes the members), so the result
is the indeterminate prior contents — here the junk tag Int64(7) — and
not Null; the present case and both from_variant directions behave as the
claim states. -/
theorem claim_C7_optional_bug :
    variant_of_optional (fun n : Int => .int64_type n) (.int64_type 7) none =
      .int64_type 7 ∧
    (variant.int64_type 7).is_null = false ∧
    variant_of_optional (fun n : Int => .int64_type n) (.int64_type 7) (some 5) =
      .int64_type 5 ∧
    from_variant_optional (fun v _ => v.as_int64) 0 .null_type = .ok none ∧
    from_variant_optional (fun v _ => v.as_int64) 0 (.int64_type 5) = .ok (some 5) :=
  ⟨rfl, rfl, rfl, rfl, rfl⟩

end fc
